import Mathlib

/-!
Shallow embedding of the drift-monitoring engine
(`src/monitoring/drift_detection.py`) and proofs about its claimed
properties.

Modelling conventions:
* numpy/Python floats are modelled by exact rationals; where IEEE
  non-finite values matter (division by a zero mean, the mean of an empty
  array) we use `PFloat`, rationals extended with `pinf`/`ninf`/`nan`
  following IEEE-754 semantics of numpy float64 operations.
* Python exceptions are modelled by `Except Err`; `Err` lists both the
  exceptions the source can actually raise (IndexError from numpy column
  indexing, the unbound-local NameError on `p_value`, ValueError from
  `scipy.stats.ks_2samp` on empty input and from mismatched array shapes,
  and a telemetry-backend failure) and the error kinds the specification
  postulates (SchemaMismatchError, DegenerateBaselineError,
  InsufficientDataError), so that statements about the latter can be made.
* `scipy.stats.ks_2samp` (two-sided, with the default auto method choice, which is the
  exact method for the small sample sizes considered here) is embedded by
  its mathematical definition: the statistic is the maximum absolute
  difference of the two empirical CDFs evaluated at the pooled sample
  points, and the p-value is the exact permutation probability computed by
  the scipy lattice-path count (following Hodges on Drion/Gnedenko/Korolyuk):
  `1 - (#monotone paths (0,0)→(n1,n2) staying strictly inside the band
  |x·n2 - y·n1| < h·gcd(n1,n2)) / C(n1+n2, n1)` with
  `h = round(d·lcm(n1,n2))`, and p-value 1 when `h = 0`.
* A 2-D numpy array is a `Dataset`: a column count plus a list of rows.
* The CloudWatch client is an injected `emit` function; `publish_metrics`
  additionally returns the list of metrics it submitted, which is the
  observable trace of its side effects.
-/

deriving instance DecidableEq for Except

namespace ModelMonitoring

/-- Exception kinds.  The first four can actually occur in the source;
the last three are the error kinds postulated by the specification and are
present so that claims about them are statable. -/
inductive Err
  | indexError
  | nameError
  | valueError
  | publishError
  | schemaMismatchError
  | degenerateBaselineError
  | insufficientDataError
deriving DecidableEq, Repr

/-- A 2-D numpy array: column count (the second component of `shape`) and
the list of rows. -/
structure Dataset where
  ncols : ℕ
  rows : List (List ℚ)
deriving DecidableEq, Repr

/-- numpy float64 values: exact rationals extended with the IEEE-754
non-finite values produced by division by zero and by the mean of an
empty array. -/
inductive PFloat
  | fin (q : ℚ)
  | pinf
  | ninf
  | nan
deriving DecidableEq, Repr

namespace PFloat

/-- IEEE-754 subtraction on `PFloat`. -/
def sub : PFloat → PFloat → PFloat
  | nan, _ => nan
  | _, nan => nan
  | fin a, fin b => fin (a - b)
  | fin _, pinf => ninf
  | fin _, ninf => pinf
  | pinf, fin _ => pinf
  | ninf, fin _ => ninf
  | pinf, ninf => pinf
  | ninf, pinf => ninf
  | pinf, pinf => nan
  | ninf, ninf => nan

/-- IEEE-754 division on `PFloat` (numpy float64: division by zero yields
a signed infinity or NaN with a warning, never an exception). -/
def div : PFloat → PFloat → PFloat
  | nan, _ => nan
  | _, nan => nan
  | fin a, fin b =>
      if b = 0 then (if a = 0 then nan else if 0 < a then pinf else ninf)
      else fin (a / b)
  | pinf, fin b => if b < 0 then ninf else pinf
  | ninf, fin b => if b < 0 then pinf else ninf
  | fin _, pinf => fin 0
  | fin _, ninf => fin 0
  | _, _ => nan

/-- IEEE-754 absolute value on `PFloat`. -/
def pabs : PFloat → PFloat
  | fin a => fin |a|
  | pinf => pinf
  | ninf => pinf
  | nan => nan

/-- Multiplication by the positive constant 100 (the `score * 100`
normalisation in the source). -/
def mul100 : PFloat → PFloat
  | fin a => fin (a * 100)
  | pinf => pinf
  | ninf => ninf
  | nan => nan

/-- Comparison `x > θ` against a finite threshold; any comparison with NaN
is false (numpy semantics). -/
def gtQ : PFloat → ℚ → Bool
  | fin a, t => decide (t < a)
  | pinf, _ => true
  | ninf, _ => false
  | nan, _ => false

end PFloat

/-- The mean `np.mean` of a float array: NaN on an empty array (with a numpy
RuntimeWarning), otherwise the exact arithmetic mean. -/
def npMean (xs : List ℚ) : PFloat :=
  if xs.length = 0 then PFloat.nan else PFloat.fin (xs.sum / xs.length)

/-- Empirical CDF of a sample at point `t`: the fraction of sample points
that are `≤ t`. -/
def ecdf (xs : List ℚ) (t : ℚ) : ℚ :=
  ((xs.countP (fun x => decide (x ≤ t)) : ℕ) : ℚ) / (xs.length : ℚ)

/-- The two-sample Kolmogorov–Smirnov statistic: the maximum absolute
difference of the two empirical CDFs, evaluated at every pooled sample
point (which is where scipy evaluates it, and where the supremum of the
two step functions is attained). -/
def ksStat (data1 data2 : List ℚ) : ℚ :=
  ((data1 ++ data2).map (fun t => |ecdf data1 t - ecdf data2 t|)).foldr max 0

/-- Fuel-indexed count of monotone lattice paths from `(0,0)` to `(x,y)`
every point of which satisfies `cond`.  Fuel `x + y + 1` suffices. -/
def countInsideAux (cond : ℕ → ℕ → Bool) : ℕ → ℕ → ℕ → ℕ
  | 0, _, _ => 0
  | fuel + 1, x, y =>
    if cond x y then
      match x, y with
      | 0, 0 => 1
      | 0, j + 1 => countInsideAux cond fuel 0 j
      | i + 1, 0 => countInsideAux cond fuel i 0
      | i + 1, j + 1 =>
          countInsideAux cond fuel (i + 1) j + countInsideAux cond fuel i (j + 1)
    else 0

/-- Count of monotone lattice paths from `(0,0)` to `(m,n)` all of whose
points satisfy `cond`. -/
def countInside (cond : ℕ → ℕ → Bool) (m n : ℕ) : ℕ :=
  countInsideAux cond (m + n + 1) m n

/-- Exact two-sided two-sample KS p-value, as computed by the scipy exact
method: `h = round(d·lcm)`; p-value 1 when `h = 0`, else one minus the
fraction of monotone lattice paths from `(0,0)` to `(n1,n2)` staying
strictly inside the band `|x/n1 - y/n2| < h/lcm`, i.e.
`|x·n2 - y·n1| < h·g`. -/
def ks_pvalue (n1 n2 : ℕ) (d : ℚ) : ℚ :=
  let g : ℕ := Nat.gcd n1 n2
  let l : ℕ := (n1 / g) * n2
  let h : ℤ := round (d * (l : ℚ))
  if h = 0 then 1
  else
    1 - (countInside
          (fun x y => decide (|(x : ℤ) * (n2 : ℤ) - (y : ℤ) * (n1 : ℤ)| < h * (g : ℤ)))
          n1 n2 : ℚ) / ((n1 + n2).choose n1 : ℚ)

/-- The `(statistic, pvalue)` pair of `scipy.stats.ks_2samp` on non-empty
samples. -/
def ksPair (data1 data2 : List ℚ) : ℚ × ℚ :=
  let d := ksStat data1 data2
  (d, ks_pvalue data1.length data2.length d)

/-- Embedding of `scipy.stats.ks_2samp`: raises `ValueError` when either sample is
empty, otherwise returns the `(statistic, pvalue)` pair. -/
def ks_2samp (data1 data2 : List ℚ) : Except Err (ℚ × ℚ) :=
  if data1.length = 0 ∨ data2.length = 0 then Except.error Err.valueError
  else Except.ok (ksPair data1 data2)

/-- Column `i` of a dataset, ignoring bounds (the entry `i` of each row;
the default is never used on a rectangular array with `i < ncols`). -/
def column (d : Dataset) (i : ℕ) : List ℚ :=
  d.rows.map (fun r => r.getD i 0)

/-- numpy column indexing `d[:, i]`: `IndexError` when `i` is not below
the column count, otherwise the column. -/
def columnE (d : Dataset) (i : ℕ) : Except Err (List ℚ) :=
  if i < d.ncols then Except.ok (column d i) else Except.error Err.indexError

/-- The local variables of the `for i, feature in enumerate(features)`
loop of `detect_data_drift`; `last_p` is the Python local `p_value`,
`none` while it is still unbound. -/
structure LoopState where
  drift_detected : Bool
  affected_features : List String
  max_drift_score : ℚ
  last_p : Option ℚ
deriving DecidableEq, Repr

/-- One iteration of the `detect_data_drift` loop body given the
`(statistic, p_value)` pair of the current feature. -/
def driftStep (θ : ℚ) (st : LoopState) (feature : String) (sp : ℚ × ℚ) : LoopState :=
  if sp.2 < θ then
    ⟨true, st.affected_features ++ [feature], max st.max_drift_score sp.1, some sp.2⟩
  else
    ⟨st.drift_detected, st.affected_features, st.max_drift_score, some sp.2⟩

/-- The `detect_data_drift` loop: for each feature at index `i`, extract
the baseline and current columns (in that order, matching the argument
order of the `ks_2samp` call), run the KS test, and update the state. -/
def driftLoop (θ : ℚ) (current_data baseline_data : Dataset) :
    ℕ → List String → LoopState → Except Err LoopState
  | _, [], st => Except.ok st
  | i, feature :: rest, st =>
    match columnE baseline_data i with
    | Except.error e => Except.error e
    | Except.ok bcol =>
      match columnE current_data i with
      | Except.error e => Except.error e
      | Except.ok ccol =>
        match ks_2samp bcol ccol with
        | Except.error e => Except.error e
        | Except.ok sp =>
            driftLoop θ current_data baseline_data (i + 1) rest (driftStep θ st feature sp)

/-- The return value of `detect_data_drift`. -/
structure DataDriftResult where
  detected : Bool
  score : ℚ
  affected_features : List String
  p_value : ℚ
deriving DecidableEq, Repr

/-- Embedding of `DriftDetector.detect_data_drift`: run the per-feature loop starting
from `drift_detected = False`, `affected_features = []`,
`max_drift_score = 0` and `p_value` unbound; building the result dict
reads `p_value`, which raises an unbound-local NameError when the loop
body never ran. -/
def detect_data_drift (θ : ℚ) (current_data baseline_data : Dataset)
    (features : List String) : Except Err DataDriftResult :=
  match driftLoop θ current_data baseline_data 0 features ⟨false, [], 0, none⟩ with
  | Except.error e => Except.error e
  | Except.ok st =>
    match st.last_p with
    | none => Except.error Err.nameError
    | some p => Except.ok ⟨st.drift_detected, st.max_drift_score * 100, st.affected_features, p⟩

/-- The return value of `detect_concept_drift`; `baseline_accuracy` is the
hard-coded Python float `0.95`. -/
structure ConceptDriftResult where
  detected : Bool
  score : PFloat
  current_accuracy : PFloat
  baseline_accuracy : ℚ
deriving DecidableEq, Repr

/-- The agreement rate `np.mean(predictions == actuals)` for equal-length integer label
arrays: NaN on empty arrays, otherwise the fraction of positions where
the labels agree. -/
def npEqMean (predictions actuals : List ℤ) : PFloat :=
  if predictions.length = 0 then PFloat.nan
  else
    PFloat.fin
      (((predictions.zip actuals).countP (fun x => decide (x.1 = x.2)) : ℕ) /
        (predictions.length : ℚ))

/-- Embedding of `DriftDetector.detect_concept_drift`: accuracy is the element-wise
agreement rate (numpy raises ValueError on mismatched shapes),
`baseline_accuracy` is hard-coded `0.95`, and
`score = |baseline_accuracy - accuracy| * 100`. -/
def detect_concept_drift (θ : ℚ) (predictions actuals : List ℤ) :
    Except Err ConceptDriftResult :=
  if predictions.length ≠ actuals.length then Except.error Err.valueError
  else
    let accuracy := npEqMean predictions actuals
    let drift_score := PFloat.pabs (PFloat.sub (PFloat.fin (19/20)) accuracy)
    Except.ok ⟨PFloat.gtQ drift_score θ, PFloat.mul100 drift_score, accuracy, 19/20⟩

/-- The return value of `detect_prediction_drift`. -/
structure PredDriftResult where
  detected : Bool
  score : PFloat
  current_mean : PFloat
  baseline_mean : PFloat
deriving DecidableEq, Repr

/-- Embedding of `DriftDetector.detect_prediction_drift`:
`score = |(current_mean - baseline_mean) / baseline_mean| * 100`, with
numpy float64 division (a zero baseline mean yields an infinity or NaN,
never an exception). -/
def detect_prediction_drift (θ : ℚ) (current_predictions baseline_predictions : List ℚ) :
    PredDriftResult :=
  let current_mean := npMean current_predictions
  let baseline_mean := npMean baseline_predictions
  let drift_score := PFloat.pabs (PFloat.div (PFloat.sub current_mean baseline_mean) baseline_mean)
  ⟨PFloat.gtQ drift_score θ, PFloat.mul100 drift_score, current_mean, baseline_mean⟩

/-- Python values appearing in the result dicts.  `pybool` is a Python
`bool` (a subclass of `int`, so `isinstance(v, (int, float))` holds);
`npbool` is a `numpy.bool_` (not a subclass of `int`); `num` is an
`int`/`float`/`numpy.float64`. -/
inductive PyVal
  | pybool (b : Bool)
  | npbool (b : Bool)
  | num (x : PFloat)
  | strList (l : List String)
deriving DecidableEq, Repr

/-- The check `isinstance(v, (int, float))`. -/
def PyVal.isNumeric : PyVal → Bool
  | pybool _ => true
  | num _ => true
  | _ => false

/-- The conversion `float(v)` on the values `publish_metrics` actually emits (numeric
ones); junk on the others, which are filtered out before use. -/
def PyVal.toFloat : PyVal → PFloat
  | pybool b => PFloat.fin (if b then 1 else 0)
  | npbool b => PFloat.fin (if b then 1 else 0)
  | num x => x
  | strList _ => PFloat.nan

/-- One CloudWatch metric datum (the wall-clock timestamp is external
state and is not modelled). -/
structure Metric where
  name : String
  value : PFloat
  unit : String
deriving DecidableEq, Repr

/-- Embedding of `DriftDetector.publish_metrics`: for each entry of the metrics dict
(in order), if the value is numeric, submit one metric named
`model_id ++ "/" ++ key` with unit `"Percent"` via the injected CloudWatch
`emit`; an `emit` failure propagates.  Returns the trace of submitted
metrics. -/
def publish_metrics (emit : Metric → Except Err Unit)
    (metrics : List (String × PyVal)) (model_id : String) :
    Except Err (List Metric) :=
  match metrics with
  | [] => Except.ok []
  | (k, v) :: rest =>
    if v.isNumeric then
      match emit ⟨model_id ++ "/" ++ k, v.toFloat, "Percent"⟩ with
      | Except.error e => Except.error e
      | Except.ok _ =>
        match publish_metrics emit rest model_id with
        | Except.error e => Except.error e
        | Except.ok ms => Except.ok (⟨model_id ++ "/" ++ k, v.toFloat, "Percent"⟩ :: ms)
    else publish_metrics emit rest model_id

/-- The items of the `detect_data_drift` result dict, with the Python
runtime type of each value: `drift_detected` is a Python `bool`, `score`
and `p_value` are floats, `affected_features` is a list of strings. -/
def dataDriftItems (r : DataDriftResult) : List (String × PyVal) :=
  [("detected", PyVal.pybool r.detected),
   ("score", PyVal.num (PFloat.fin r.score)),
   ("affected_features", PyVal.strList r.affected_features),
   ("p_value", PyVal.num (PFloat.fin r.p_value))]

/-- The items of the `detect_concept_drift` result dict; `detected` is a
`numpy.bool_` (the result of comparing a `numpy.float64` with a float). -/
def conceptDriftItems (r : ConceptDriftResult) : List (String × PyVal) :=
  [("detected", PyVal.npbool r.detected),
   ("score", PyVal.num r.score),
   ("current_accuracy", PyVal.num r.current_accuracy),
   ("baseline_accuracy", PyVal.num (PFloat.fin r.baseline_accuracy))]

/-- The items of the `detect_prediction_drift` result dict; `detected` is
a `numpy.bool_`. -/
def predDriftItems (r : PredDriftResult) : List (String × PyVal) :=
  [("detected", PyVal.npbool r.detected),
   ("score", PyVal.num r.score),
   ("current_mean", PyVal.num r.current_mean),
   ("baseline_mean", PyVal.num r.baseline_mean)]

/-- The `all_metrics` dict of `run_monitoring`: the numeric entries of
the three result dicts, key-prefixed by drift type, merged in order. -/
def allMetrics (r1 : DataDriftResult) (r2 : ConceptDriftResult) (r3 : PredDriftResult) :
    List (String × PyVal) :=
  ((dataDriftItems r1).filter (fun kv => kv.2.isNumeric)).map
      (fun kv => ("data_drift_" ++ kv.1, kv.2)) ++
    ((conceptDriftItems r2).filter (fun kv => kv.2.isNumeric)).map
      (fun kv => ("concept_drift_" ++ kv.1, kv.2)) ++
    ((predDriftItems r3).filter (fun kv => kv.2.isNumeric)).map
      (fun kv => ("prediction_drift_" ++ kv.1, kv.2))

/-- The inputs a monitoring run works on.  In the source these are demo
random draws standing in for the external data source; they are
parameters of the embedding so that the orchestration logic can be
stated for arbitrary data. -/
structure MonitoringInput where
  current_data : Dataset
  baseline_data : Dataset
  features : List String
  concept_predictions : List ℤ
  concept_actuals : List ℤ
  current_predictions : List ℚ
  baseline_predictions : List ℚ
deriving DecidableEq, Repr

/-- The dict `run_monitoring` returns: the three drift results keyed by
drift type. -/
structure MonitoringReport where
  data_drift : DataDriftResult
  concept_drift : ConceptDriftResult
  prediction_drift : PredDriftResult
deriving DecidableEq, Repr

/-- Embedding of `run_monitoring`: with threshold `0.10`, run the three detections in
sequence, build `all_metrics`, publish via the injected CloudWatch
`emit`, and return the report.  Any exception — including one raised
inside `publish_metrics` — propagates to the caller; there is no
try/except anywhere in the function. -/
def run_monitoring (emit : Metric → Except Err Unit) (model_id : String)
    (inp : MonitoringInput) : Except Err MonitoringReport :=
  match detect_data_drift (1/10) inp.current_data inp.baseline_data inp.features with
  | Except.error e => Except.error e
  | Except.ok data_drift =>
    match detect_concept_drift (1/10) inp.concept_predictions inp.concept_actuals with
    | Except.error e => Except.error e
    | Except.ok concept_drift =>
      let pred_drift := detect_prediction_drift (1/10) inp.current_predictions
        inp.baseline_predictions
      match publish_metrics emit (allMetrics data_drift concept_drift pred_drift) model_id with
      | Except.error e => Except.error e
      | Except.ok _ => Except.ok ⟨data_drift, concept_drift, pred_drift⟩

/-- A telemetry backend that accepts every call. -/
def alwaysOkEmit : Metric → Except Err Unit := fun _ => Except.ok ()

/-- A telemetry backend that returns an error for every call. -/
def alwaysFailEmit : Metric → Except Err Unit := fun _ => Except.error Err.publishError

/-- The statistics of the significant features (p-value strictly below
the threshold) among the `n` features starting at column index `i`,
in iteration order.  Stated from the amended score policy of claim C1:
the score tracks only features that passed the significance cut. -/
def sigStats (θ : ℚ) (current_data baseline_data : Dataset) : ℕ → ℕ → List ℚ
  | _, 0 => []
  | i, n + 1 =>
    let sp := ksPair (column baseline_data i) (column current_data i)
    (if sp.2 < θ then [sp.1] else []) ++ sigStats θ current_data baseline_data (i + 1) n

/-- The maximum KS statistic over the significant features among the
first `n` (0 when none is significant) — the amended score policy. -/
def maxSignificantStat (θ : ℚ) (current_data baseline_data : Dataset) (n : ℕ) : ℚ :=
  (sigStats θ current_data baseline_data 0 n).foldl max 0

/-! ### Helper lemmas -/

/-- Folding `max` from `0` over a list of zeros gives `0`. -/
theorem foldr_max_map_zero : ∀ l : List ℚ, (l.map (fun _ => (0 : ℚ))).foldr max 0 = 0
  | [] => rfl
  | _ :: l => by
    rw [List.map_cons, List.foldr_cons, foldr_max_map_zero l, max_self]

/-- The KS statistic of a sample against itself is exactly 0. -/
theorem ksStat_self (x : List ℚ) : ksStat x x = 0 := by
  unfold ksStat
  have h : (x ++ x).map (fun t => |ecdf x t - ecdf x t|) = (x ++ x).map (fun _ => (0 : ℚ)) := by
    simp
  rw [h, foldr_max_map_zero]

/-- The exact KS p-value at statistic 0 is 1 (the `h = 0` early return). -/
theorem ks_pvalue_zero (n1 n2 : ℕ) : ks_pvalue n1 n2 0 = 1 := by
  unfold ks_pvalue
  simp

/-- Running `ks_2samp` on a non-empty sample against itself returns `(0, 1)`. -/
theorem ks_2samp_self (x : List ℚ) (hx : x ≠ []) : ks_2samp x x = Except.ok (0, 1) := by
  have hlen : ¬ x.length = 0 := by simpa [List.length_eq_zero] using hx
  simp [ks_2samp, hlen, ksPair, ksStat_self, ks_pvalue_zero]

/-- A column of a dataset with at least one row is non-empty. -/
theorem column_ne_nil (d : Dataset) (i : ℕ) (h : d.rows ≠ []) : column d i ≠ [] := by
  simpa [column] using h

/-- On two identical datasets, every loop iteration leaves the detection
flag, affected list and maximum score unchanged and binds `p_value` to 1,
provided the threshold is at most 1 and the dataset is non-degenerate. -/
theorem driftLoop_self (θ : ℚ) (d : Dataset) (hθ : θ ≤ 1) (hrows : d.rows ≠ []) :
    ∀ (fs : List String) (i : ℕ) (st : LoopState), i + fs.length ≤ d.ncols →
      driftLoop θ d d i fs st =
        Except.ok ⟨st.drift_detected, st.affected_features, st.max_drift_score,
          if fs.isEmpty then st.last_p else some 1⟩
  | [], i, st, _ => by simp [driftLoop]
  | f :: rest, i, st, h => by
    have hi : i < d.ncols := by simp at h; omega
    have hcol : columnE d i = Except.ok (column d i) := by simp [columnE, hi]
    have hks : ks_2samp (column d i) (column d i) = Except.ok (0, 1) :=
      ks_2samp_self _ (column_ne_nil d i hrows)
    have hstep : driftStep θ st f (0, 1) =
        ⟨st.drift_detected, st.affected_features, st.max_drift_score, some 1⟩ := by
      simp [driftStep, not_lt.mpr hθ]
    have hrec := driftLoop_self θ d hθ hrows rest (i + 1)
      ⟨st.drift_detected, st.affected_features, st.max_drift_score, some 1⟩
      (by simp at h ⊢; omega)
    simp only [driftLoop, hcol, hks, hstep, hrec]
    cases rest <;> simp

/-- A successful run of the per-feature loop computes as its maximum
score the fold of `max` over the statistics of the significant features
it visited. -/
theorem driftLoop_ok_max (θ : ℚ) (cur base : Dataset) :
    ∀ (fs : List String) (i : ℕ) (st st' : LoopState),
      driftLoop θ cur base i fs st = Except.ok st' →
      st'.max_drift_score = (sigStats θ cur base i fs.length).foldl max st.max_drift_score
  | [], i, st, st', h => by
    simp [driftLoop] at h
    simp [← h, sigStats]
  | f :: rest, i, st, st', h => by
    rw [driftLoop] at h
    cases hb : columnE base i with
    | error e => simp only [hb] at h; exact Except.noConfusion h
    | ok bcol =>
      simp only [hb] at h
      cases hc : columnE cur i with
      | error e => simp only [hc] at h; exact Except.noConfusion h
      | ok ccol =>
        simp only [hc] at h
        cases hks : ks_2samp bcol ccol with
        | error e => simp only [hks] at h; exact Except.noConfusion h
        | ok sp =>
          simp only [hks] at h
          have hbcol : bcol = column base i := by
            by_cases hib : i < base.ncols
            · simpa [columnE, hib] using hb.symm
            · simp [columnE, hib] at hb
          have hccol : ccol = column cur i := by
            by_cases hic : i < cur.ncols
            · simpa [columnE, hic] using hc.symm
            · simp [columnE, hic] at hc
          have hsp : sp = ksPair (column base i) (column cur i) := by
            rw [hbcol, hccol] at hks
            by_cases hemp : column base i = [] ∨ column cur i = []
            · simp [ks_2samp, List.length_eq_zero, hemp] at hks
            · simpa [ks_2samp, List.length_eq_zero, hemp] using hks.symm
          have ih := driftLoop_ok_max θ cur base rest (i + 1) (driftStep θ st f sp) st' h
          rw [ih]
          show _ = (sigStats θ cur base i (rest.length + 1)).foldl max st.max_drift_score
          rw [sigStats]
          by_cases hsig : (ksPair (column base i) (column cur i)).2 < θ
          · simp [hsig, driftStep, hsp]
          · simp [hsig, driftStep, hsp]

/-- A successful run of the per-feature loop over a non-empty feature
list binds `p_value` to the p-value of the feature visited last. -/
theorem driftLoop_ok_last (θ : ℚ) (cur base : Dataset) :
    ∀ (fs : List String) (i : ℕ) (st st' : LoopState), fs ≠ [] →
      driftLoop θ cur base i fs st = Except.ok st' →
      st'.last_p =
        some ((ksPair (column base (i + fs.length - 1)) (column cur (i + fs.length - 1))).2)
  | [], _, _, _, hne, _ => absurd rfl hne
  | f :: rest, i, st, st', _, h => by
    rw [driftLoop] at h
    cases hb : columnE base i with
    | error e => simp only [hb] at h; exact Except.noConfusion h
    | ok bcol =>
      simp only [hb] at h
      cases hc : columnE cur i with
      | error e => simp only [hc] at h; exact Except.noConfusion h
      | ok ccol =>
        simp only [hc] at h
        cases hks : ks_2samp bcol ccol with
        | error e => simp only [hks] at h; exact Except.noConfusion h
        | ok sp =>
          simp only [hks] at h
          have hbcol : bcol = column base i := by
            by_cases hib : i < base.ncols
            · simpa [columnE, hib] using hb.symm
            · simp [columnE, hib] at hb
          have hccol : ccol = column cur i := by
            by_cases hic : i < cur.ncols
            · simpa [columnE, hic] using hc.symm
            · simp [columnE, hic] at hc
          have hsp : sp = ksPair (column base i) (column cur i) := by
            rw [hbcol, hccol] at hks
            by_cases hemp : column base i = [] ∨ column cur i = []
            · simp [ks_2samp, List.length_eq_zero, hemp] at hks
            · simpa [ks_2samp, List.length_eq_zero, hemp] using hks.symm
          cases rest with
          | nil =>
            simp [driftLoop] at h
            simp [← h, driftStep, hsp]
            by_cases hsig : (ksPair (column base i) (column cur i)).2 < θ <;> simp [hsig]
          | cons g rest2 =>
            have ih := driftLoop_ok_last θ cur base (g :: rest2) (i + 1)
              (driftStep θ st f sp) st' (by simp) h
            rw [ih]
            have harith : i + 1 + (g :: rest2).length - 1 = i + (f :: g :: rest2).length - 1 := by
              simp; omega
            rw [harith]

/-- The per-feature loop can only fail with `IndexError` (out-of-range
column) or `ValueError` (empty sample passed to the KS test). -/
theorem driftLoop_no_schema (θ : ℚ) (cur base : Dataset) :
    ∀ (fs : List String) (i : ℕ) (st : LoopState),
      driftLoop θ cur base i fs st ≠ Except.error Err.schemaMismatchError
  | [], _, _ => by simp [driftLoop]
  | f :: rest, i, st => by
    rw [driftLoop]
    cases hb : columnE base i with
    | error e =>
      have he : e = Err.indexError := by
        by_cases hib : i < base.ncols <;> simp [columnE, hib] at hb
        exact hb.symm
      simp [he]
    | ok bcol =>
      simp only []
      cases hc : columnE cur i with
      | error e =>
        have he : e = Err.indexError := by
          by_cases hic : i < cur.ncols <;> simp [columnE, hic] at hc
          exact hc.symm
        simp [he]
      | ok ccol =>
        simp only []
        cases hks : ks_2samp bcol ccol with
        | error e =>
          have he : e = Err.valueError := by
            by_cases hemp : bcol = [] ∨ ccol = [] <;>
              simp [ks_2samp, List.length_eq_zero, hemp] at hks
            exact hks.symm
          simp [he]
        | ok sp =>
          simp only []
          exact driftLoop_no_schema θ cur base rest (i + 1) (driftStep θ st f sp)

/-! ### Claim theorems -/

/-- Claim C10 (confirmed): calling `detect_data_drift` with an empty
feature list fails with the unbound-local NameError on `p_value` — the
per-feature loop body never executes, so building the result dict reads
an unbound variable — instead of returning a `DriftResult`. -/
theorem claim_C10 (θ : ℚ) (current_data baseline_data : Dataset) :
    detect_data_drift θ current_data baseline_data [] = Except.error Err.nameError := rfl

/-- Claim C6 (confirmed): for identical current and baseline datasets
with a non-empty feature list (whose length is within the dataset width,
with at least one row, and a threshold within the specified `θ ≤ 1`
range), `detect_data_drift` returns `detected = false` and `score = 0`:
the KS statistic of two identical empirical distributions is exactly 0
and its p-value is 1. -/
theorem claim_C6 (θ : ℚ) (d : Dataset) (features : List String)
    (hne : features ≠ []) (hw : features.length ≤ d.ncols)
    (hrows : d.rows ≠ []) (hθ : θ ≤ 1) :
    detect_data_drift θ d d features = Except.ok ⟨false, 0, [], 1⟩ := by
  have h := driftLoop_self θ d hθ hrows features 0 ⟨false, [], 0, none⟩ (by simpa using hw)
  rw [detect_data_drift, h]
  have hemp : features.isEmpty = false := by
    cases features with
    | nil => exact absurd rfl hne
    | cons a l => rfl
  simp [hemp]

/-- Witness for claim C6 at a concrete input. -/
theorem claim_C6_witness :
    ((["f1"] : List String) ≠ [] ∧
      (["f1"] : List String).length ≤ (Dataset.mk 1 [[0], [1]]).ncols ∧
      (Dataset.mk 1 [[0], [1]]).rows ≠ [] ∧ (1/10 : ℚ) ≤ 1) ∧
    detect_data_drift (1/10) ⟨1, [[0], [1]]⟩ ⟨1, [[0], [1]]⟩ ["f1"] =
      Except.ok ⟨false, 0, [], 1⟩ :=
  ⟨⟨by simp, by simp, by simp, by norm_num⟩,
   claim_C6 (1/10) ⟨1, [[0], [1]]⟩ ["f1"] (by simp) (by simp) (by simp) (by norm_num)⟩

/-- Claim C1 is false on the code: with a single feature whose KS
statistic is 1 but whose p-value (1/3) is not below the threshold 0.1,
the returned score is 0, not 100 × the maximum KS statistic over all
features (which would be 100). -/
theorem claim_C1_counterexample :
    detect_data_drift (1/10) ⟨1, [[10], [11]]⟩ ⟨1, [[0], [1]]⟩ ["f1"] =
      Except.ok ⟨false, 0, [], 1/3⟩ ∧
    ksStat (column ⟨1, [[0], [1]]⟩ 0) (column ⟨1, [[10], [11]]⟩ 0) = 1 := by
  constructor
  · norm_num [detect_data_drift, driftLoop, columnE, column, ks_2samp, ksPair, driftStep,
      ksStat, ecdf, List.countP, List.countP.go, max_def, abs_of_nonneg,
      ks_pvalue, countInside, countInsideAux, round_eq, Nat.choose]
  · norm_num [column, ksStat, ecdf, List.countP, List.countP.go, max_def, abs_of_nonneg]

/-- Claim C1 (corrected): the score returned by `detect_data_drift` is
100 × the maximum KS statistic over the *affected* features only — those
whose p-value was strictly below the threshold — and 0 when no feature
passed the significance cut, not the maximum over all features. -/
theorem claim_C1 (θ : ℚ) (current_data baseline_data : Dataset)
    (features : List String) (r : DataDriftResult)
    (h : detect_data_drift θ current_data baseline_data features = Except.ok r) :
    r.score = maxSignificantStat θ current_data baseline_data features.length * 100 := by
  rw [detect_data_drift] at h
  cases hl : driftLoop θ current_data baseline_data 0 features ⟨false, [], 0, none⟩ with
  | error e => simp only [hl] at h; exact Except.noConfusion h
  | ok st =>
    simp only [hl] at h
    have hm := driftLoop_ok_max θ current_data baseline_data features 0 ⟨false, [], 0, none⟩ st hl
    cases hp : st.last_p with
    | none => simp only [hp] at h; exact Except.noConfusion h
    | some p =>
      simp only [hp] at h
      have hr : r = ⟨st.drift_detected, st.max_drift_score * 100, st.affected_features, p⟩ :=
        (Except.ok.inj h).symm
      rw [hr]
      show st.max_drift_score * 100 = _
      rw [hm, maxSignificantStat]

/-- Witness for the corrected claim C1 at a concrete input. -/
theorem claim_C1_witness :
    detect_data_drift (1/10) ⟨1, [[10], [11]]⟩ ⟨1, [[0], [1]]⟩ ["f1"] =
      Except.ok ⟨false, 0, [], 1/3⟩ ∧
    (DataDriftResult.mk false 0 [] (1/3)).score =
      maxSignificantStat (1/10) ⟨1, [[10], [11]]⟩ ⟨1, [[0], [1]]⟩
        (["f1"] : List String).length * 100 :=
  ⟨by norm_num [detect_data_drift, driftLoop, columnE, column, ks_2samp, ksPair, driftStep,
      ksStat, ecdf, List.countP, List.countP.go, max_def, abs_of_nonneg,
      ks_pvalue, countInside, countInsideAux, round_eq, Nat.choose],
   claim_C1 (1/10) ⟨1, [[10], [11]]⟩ ⟨1, [[0], [1]]⟩ ["f1"] ⟨false, 0, [], 1/3⟩
     (by norm_num [detect_data_drift, driftLoop, columnE, column, ks_2samp, ksPair, driftStep,
       ksStat, ecdf, List.countP, List.countP.go, max_def, abs_of_nonneg,
       ks_pvalue, countInside, countInsideAux, round_eq, Nat.choose])⟩

/-- Claim C8 (confirmed): on a successful call with a non-empty feature
list, the `p_value` field of the result is the p-value computed for the
feature evaluated last in iteration order (the loop variable leaks its
final value into the result dict). -/
theorem claim_C8 (θ : ℚ) (current_data baseline_data : Dataset)
    (features : List String) (r : DataDriftResult) (hne : features ≠ [])
    (h : detect_data_drift θ current_data baseline_data features = Except.ok r) :
    r.p_value = (ksPair (column baseline_data (features.length - 1))
      (column current_data (features.length - 1))).2 := by
  rw [detect_data_drift] at h
  cases hl : driftLoop θ current_data baseline_data 0 features ⟨false, [], 0, none⟩ with
  | error e => simp only [hl] at h; exact Except.noConfusion h
  | ok st =>
    simp only [hl] at h
    have hlast := driftLoop_ok_last θ current_data baseline_data features 0
      ⟨false, [], 0, none⟩ st hne hl
    cases hp : st.last_p with
    | none => simp only [hp] at h; exact Except.noConfusion h
    | some p =>
      simp only [hp] at h
      have hr : r = ⟨st.drift_detected, st.max_drift_score * 100, st.affected_features, p⟩ :=
        (Except.ok.inj h).symm
      rw [hp] at hlast
      rw [hr]
      show p = _
      simpa using Option.some.inj hlast

/-- Witness for claim C8 at a concrete input. -/
theorem claim_C8_witness :
    ((["f1"] : List String) ≠ [] ∧
      detect_data_drift (1/10) ⟨1, [[10], [11]]⟩ ⟨1, [[0], [1]]⟩ ["f1"] =
        Except.ok ⟨false, 0, [], 1/3⟩) ∧
    (DataDriftResult.mk false 0 [] (1/3)).p_value =
      (ksPair (column ⟨1, [[0], [1]]⟩ ((["f1"] : List String).length - 1))
        (column ⟨1, [[10], [11]]⟩ ((["f1"] : List String).length - 1))).2 :=
  ⟨⟨by simp,
    by norm_num [detect_data_drift, driftLoop, columnE, column, ks_2samp, ksPair, driftStep,
      ksStat, ecdf, List.countP, List.countP.go, max_def, abs_of_nonneg,
      ks_pvalue, countInside, countInsideAux, round_eq, Nat.choose]⟩,
   claim_C8 (1/10) ⟨1, [[10], [11]]⟩ ⟨1, [[0], [1]]⟩ ["f1"] ⟨false, 0, [], 1/3⟩ (by simp)
     (by norm_num [detect_data_drift, driftLoop, columnE, column, ks_2samp, ksPair, driftStep,
       ksStat, ecdf, List.countP, List.countP.go, max_def, abs_of_nonneg,
       ks_pvalue, countInside, countInsideAux, round_eq, Nat.choose])⟩

/-- Claim C4 is false on the code: with datasets of different widths
(2 columns vs 1 column) and a feature list that fits inside both, no
`SchemaMismatchError` (indeed no error at all) is raised — the call
returns normally. -/
theorem claim_C4_counterexample :
    (Dataset.mk 2 [[5, 7], [6, 8]]).ncols ≠ (Dataset.mk 1 [[5], [6]]).ncols ∧
    detect_data_drift (1/10) ⟨2, [[5, 7], [6, 8]]⟩ ⟨1, [[5], [6]]⟩ ["f1"] =
      Except.ok ⟨false, 0, [], 1⟩ := by
  constructor
  · simp
  · norm_num [detect_data_drift, driftLoop, columnE, column, ks_2samp, ksPair, driftStep,
      ksStat, ecdf, List.countP, List.countP.go, max_def, abs_of_nonneg,
      ks_pvalue, countInside, countInsideAux, round_eq, Nat.choose]

/-- Claim C4 (corrected): `detect_data_drift` performs no schema check
and never raises `SchemaMismatchError`, for any combination of widths,
row counts and feature lists; a width mismatch is either silently
tolerated (feature list within both widths) or surfaces as an unhandled
IndexError. -/
theorem claim_C4 (θ : ℚ) (current_data baseline_data : Dataset) (features : List String) :
    detect_data_drift θ current_data baseline_data features ≠
      Except.error Err.schemaMismatchError := by
  rw [detect_data_drift]
  cases hl : driftLoop θ current_data baseline_data 0 features ⟨false, [], 0, none⟩ with
  | error e =>
    have hns := driftLoop_no_schema θ current_data baseline_data features 0 ⟨false, [], 0, none⟩
    rw [hl] at hns
    simpa using hns
  | ok st =>
    cases hp : st.last_p <;> simp [hp]

/-- Counting agreeing positions is symmetric in the two zipped lists. -/
theorem countP_zip_comm : ∀ (p a : List ℤ),
    (p.zip a).countP (fun x => decide (x.1 = x.2)) =
      (a.zip p).countP (fun x => decide (x.1 = x.2))
  | [], a => by cases a <;> simp
  | _ :: _, [] => by simp
  | x :: p, y :: a => by
    simp only [List.zip_cons_cons, List.countP_cons, countP_zip_comm p a]
    by_cases hxy : x = y
    · simp [hxy]
    · have hyx : ¬ y = x := fun hh => hxy hh.symm
      simp [hxy, hyx]

/-- Claim C7 (confirmed): for equal-length label sequences, swapping the
`predictions` and `actuals` arguments of `detect_concept_drift` changes
nothing: the computed accuracy — and hence the whole result — is
identical. -/
theorem claim_C7 (θ : ℚ) (predictions actuals : List ℤ)
    (h : predictions.length = actuals.length) :
    detect_concept_drift θ predictions actuals = detect_concept_drift θ actuals predictions := by
  have hm : npEqMean predictions actuals = npEqMean actuals predictions := by
    unfold npEqMean
    rw [h, countP_zip_comm]
  unfold detect_concept_drift
  rw [h, hm]

/-- Witness for claim C7 at a concrete input. -/
theorem claim_C7_witness :
    ([1, 2] : List ℤ).length = ([2, 2] : List ℤ).length ∧
    detect_concept_drift (1/10) [1, 2] [2, 2] = detect_concept_drift (1/10) [2, 2] [1, 2] :=
  ⟨rfl, claim_C7 (1/10) [1, 2] [2, 2] rfl⟩

/-- Claim C5 is false on the code: on empty predictions and actuals,
`detect_concept_drift` raises no `InsufficientDataError`; it silently
returns a defined result whose accuracy and score are NaN. -/
theorem claim_C5_counterexample :
    detect_concept_drift (1/10) ([] : List ℤ) [] =
      Except.ok ⟨false, PFloat.nan, PFloat.nan, 19/20⟩ := by
  norm_num [detect_concept_drift, npEqMean, PFloat.sub, PFloat.pabs, PFloat.mul100, PFloat.gtQ]

/-- Claim C5 (corrected): on empty predictions and actuals,
`detect_concept_drift` returns — for every threshold — a result with
NaN accuracy and NaN score and `detected = false` (`np.mean` of an empty
array is NaN and every NaN comparison is false); no error is raised. -/
theorem claim_C5 (θ : ℚ) :
    detect_concept_drift θ ([] : List ℤ) [] =
      Except.ok ⟨false, PFloat.nan, PFloat.nan, 19/20⟩ := by
  simp [detect_concept_drift, npEqMean, PFloat.sub, PFloat.pabs, PFloat.mul100, PFloat.gtQ]

/-- Claim C2 is false on the code: with baseline predictions of mean
exactly zero, `detect_prediction_drift` does not fail — it returns a
result whose score is positive infinity. -/
theorem claim_C2_counterexample :
    npMean ([1, -1] : List ℚ) = PFloat.fin 0 ∧
    detect_prediction_drift (1/10) [1] [1, -1] =
      ⟨true, PFloat.pinf, PFloat.fin 1, PFloat.fin 0⟩ := by
  constructor
  · norm_num [npMean]
  · norm_num [detect_prediction_drift, npMean, PFloat.sub, PFloat.div, PFloat.pabs,
      PFloat.mul100, PFloat.gtQ]

/-- Claim C2 (corrected): whenever the baseline predictions have mean
exactly zero, `detect_prediction_drift` raises no error and returns a
score that is positive infinity or NaN (numpy float64 division by
zero). -/
theorem claim_C2 (θ : ℚ) (current_predictions baseline_predictions : List ℚ)
    (h : npMean baseline_predictions = PFloat.fin 0) :
    (detect_prediction_drift θ current_predictions baseline_predictions).score = PFloat.pinf ∨
    (detect_prediction_drift θ current_predictions baseline_predictions).score = PFloat.nan := by
  unfold detect_prediction_drift
  rw [h]
  cases hcm : npMean current_predictions with
  | fin q =>
    by_cases hq : q = 0
    · simp [hq, PFloat.sub, PFloat.div, PFloat.pabs, PFloat.mul100]
    · rcases lt_trichotomy q 0 with hlt | heq | hgt
      · simp [PFloat.sub, PFloat.div, PFloat.pabs, PFloat.mul100, hq, not_lt.mpr (le_of_lt hlt)]
      · exact absurd heq hq
      · simp [PFloat.sub, PFloat.div, PFloat.pabs, PFloat.mul100, hq, hgt]
  | pinf => simp [PFloat.sub, PFloat.div, PFloat.pabs, PFloat.mul100]
  | ninf => simp [PFloat.sub, PFloat.div, PFloat.pabs, PFloat.mul100]
  | nan => simp [PFloat.sub, PFloat.div, PFloat.pabs, PFloat.mul100]

/-- Witness for the corrected claim C2 at a concrete input. -/
theorem claim_C2_witness :
    npMean ([1, -1] : List ℚ) = PFloat.fin 0 ∧
    ((detect_prediction_drift (1/10) [1] [1, -1]).score = PFloat.pinf ∨
      (detect_prediction_drift (1/10) [1] [1, -1]).score = PFloat.nan) :=
  ⟨by norm_num [npMean], claim_C2 (1/10) [1] [1, -1] (by norm_num [npMean])⟩

/-- Claim C3 is false on the code: with a telemetry backend failing every
call, `run_monitoring` propagates the publish failure and returns an
error — the already-computed report (which an accepting backend would
have returned, second conjunct) is discarded. -/
theorem claim_C3_counterexample :
    run_monitoring alwaysFailEmit "m"
        ⟨⟨1, [[0], [2]]⟩, ⟨1, [[0], [1]]⟩, ["f1"], [1], [1], [1], [1]⟩ =
      Except.error Err.publishError ∧
    run_monitoring alwaysOkEmit "m"
        ⟨⟨1, [[0], [2]]⟩, ⟨1, [[0], [1]]⟩, ["f1"], [1], [1], [1], [1]⟩ =
      Except.ok ⟨⟨false, 0, [], 1⟩, ⟨false, PFloat.fin 5, PFloat.fin 1, 19/20⟩,
        ⟨false, PFloat.fin 0, PFloat.fin 1, PFloat.fin 1⟩⟩ := by
  constructor <;>
    norm_num [run_monitoring, detect_data_drift, driftLoop, columnE, column, ks_2samp,
      ksPair, driftStep, ksStat, ecdf, List.countP, List.countP.go, max_def, abs_of_nonneg,
      ks_pvalue, countInside, countInsideAux, round_eq, Nat.choose,
      detect_concept_drift, npEqMean, detect_prediction_drift, npMean,
      PFloat.sub, PFloat.div, PFloat.pabs, PFloat.mul100, PFloat.gtQ,
      allMetrics, dataDriftItems, conceptDriftItems, predDriftItems,
      publish_metrics, alwaysFailEmit, alwaysOkEmit, PyVal.isNumeric, PyVal.toFloat]

/-- Claim C3 (corrected): when the telemetry backend returns an error for
every call, `run_monitoring` never returns a report at all — the publish
exception propagates (there is no try/except), so the computed
DriftResults are lost to the caller. -/
theorem claim_C3 (model_id : String) (inp : MonitoringInput) (rep : MonitoringReport) :
    run_monitoring alwaysFailEmit model_id inp ≠ Except.ok rep := by
  rw [run_monitoring]
  cases h1 : detect_data_drift (1/10) inp.current_data inp.baseline_data inp.features with
  | error e => simp
  | ok r1 =>
    simp only []
    cases h2 : detect_concept_drift (1/10) inp.concept_predictions inp.concept_actuals with
    | error e => simp
    | ok r2 =>
      simp [allMetrics, dataDriftItems, conceptDriftItems, predDriftItems,
        PyVal.isNumeric, publish_metrics, alwaysFailEmit]

/-- With a backend accepting every call, `publish_metrics` submits
exactly one metric per numeric entry, in iteration order. -/
theorem publish_metrics_ok (model_id : String) :
    ∀ metrics : List (String × PyVal),
      publish_metrics alwaysOkEmit metrics model_id =
        Except.ok ((metrics.filter (fun kv => kv.2.isNumeric)).map
          (fun kv => ⟨model_id ++ "/" ++ kv.1, kv.2.toFloat, "Percent"⟩))
  | [] => rfl
  | (k, v) :: rest => by
    cases hv : v.isNumeric <;>
      simp [publish_metrics, hv, alwaysOkEmit, publish_metrics_ok model_id rest,
        List.filter_cons]

/-- Appending to a fixed string on the left is injective. -/
theorem string_append_left_cancel (s : String) {t u : String}
    (h : s ++ t = s ++ u) : t = u := by
  have hd := congrArg String.data h
  simp at hd
  exact String.ext hd

/-- Claim C9 (confirmed): for any metrics mapping (with the distinct keys
a Python dict guarantees) and model identifier, `publish_metrics` emits
exactly one metric per numeric-valued entry, named
`model_id ++ "/" ++ key` with unit `"Percent"`, excludes non-numeric
fields, and no two emitted metrics share a name. -/
theorem claim_C9 (model_id : String) (metrics : List (String × PyVal))
    (h : (metrics.map Prod.fst).Nodup) :
    publish_metrics alwaysOkEmit metrics model_id =
      Except.ok ((metrics.filter (fun kv => kv.2.isNumeric)).map
        (fun kv => ⟨model_id ++ "/" ++ kv.1, kv.2.toFloat, "Percent"⟩)) ∧
    ((metrics.filter (fun kv => kv.2.isNumeric)).map
      (fun kv => model_id ++ "/" ++ kv.1)).Nodup := by
  refine ⟨publish_metrics_ok model_id metrics, ?_⟩
  have hkeys : ((metrics.filter (fun kv => kv.2.isNumeric)).map Prod.fst).Nodup :=
    h.sublist ((List.filter_sublist _).map _)
  have hmm : (metrics.filter (fun kv => kv.2.isNumeric)).map
      (fun kv => model_id ++ "/" ++ kv.1) =
    ((metrics.filter (fun kv => kv.2.isNumeric)).map Prod.fst).map
      (fun k => model_id ++ "/" ++ k) := by
    simp [List.map_map, Function.comp]
  rw [hmm]
  exact hkeys.map (fun a b hab => string_append_left_cancel (model_id ++ "/") hab)

/-- Witness for claim C9 at a concrete input. -/
theorem claim_C9_witness :
    ((([("a", PyVal.num (PFloat.fin 5)), ("b", PyVal.strList ["x"])] :
        List (String × PyVal)).map Prod.fst).Nodup) ∧
    (publish_metrics alwaysOkEmit
        [("a", PyVal.num (PFloat.fin 5)), ("b", PyVal.strList ["x"])] "m" =
      Except.ok (([("a", PyVal.num (PFloat.fin 5)),
          ("b", PyVal.strList ["x"])].filter (fun kv => kv.2.isNumeric)).map
        (fun kv => ⟨"m" ++ "/" ++ kv.1, kv.2.toFloat, "Percent"⟩)) ∧
      (([("a", PyVal.num (PFloat.fin 5)),
          ("b", PyVal.strList ["x"])].filter (fun kv => kv.2.isNumeric)).map
        (fun kv => "m" ++ "/" ++ kv.1)).Nodup) :=
  ⟨by decide, claim_C9 "m" [("a", PyVal.num (PFloat.fin 5)), ("b", PyVal.strList ["x"])]
    (by decide)⟩

end ModelMonitoring
